import Mathlib

/-!
Verification of the MCP CLI python agent (src/examples/agents/python-agent.py).

The agent drives an external MCP backend through three phases: discovery,
schema loading, and execution (single tool or batch).  The embedding below
models the decoded JSON values the agent manipulates, the envelope handling
of each phase method, the simplified argument-inference heuristics, and the
orchestration in MCPAgent.execute_task together with the sequence of backend
calls it performs.  The external backend is a parameter (structure Backend):
each field gives the response envelope the backend produces for one kind of
command, so theorems quantify over all possible backend behaviours.
-/

/-- Decoded JSON values as produced by json.loads: None, bool, numbers,
strings, lists and dicts.  Python dicts have unique keys; duplicate keys in
a field list are never produced by the scenarios modelled here, and lookup
takes the first binding. -/
inductive Json where
  | null
  | bool (b : Bool)
  | num (n : Rat)
  | str (s : String)
  | arr (elems : List Json)
  | obj (fields : List (String × Json))

/-- First binding for a key in a decoded dict. -/
def lookupField : List (String × Json) → String → Option Json
  | [], _ => none
  | (k, v) :: rest, key => if k == key then some v else lookupField rest key

mutual

/-- Python equality on decoded JSON values.  Python additionally identifies
True with 1 and False with 0 across bool and int; the comparisons reached in
this program are between strings, where the clause below is exact. -/
def jsonEq : Json → Json → Bool
  | .null, .null => true
  | .bool a, .bool c => a == c
  | .num a, .num c => a == c
  | .str a, .str c => a == c
  | .arr xs, .arr ys => jsonEqList xs ys
  | .obj fs, .obj gs => jsonEqFields fs gs
  | _, _ => false

/-- Elementwise Python equality of two decoded lists. -/
def jsonEqList : List Json → List Json → Bool
  | [], [] => true
  | x :: xs, y :: ys => jsonEq x y && jsonEqList xs ys
  | _, _ => false

/-- Python equality of two decoded dicts, in field order. -/
def jsonEqFields : List (String × Json) → List (String × Json) → Bool
  | [], [] => true
  | (k, v) :: fs, (l, w) :: gs => k == l && jsonEq v w && jsonEqFields fs gs
  | _, _ => false

end

/-- Python equality between a decoded value and a string literal: true
exactly when the value is that string. -/
def pyEqStr (j : Json) (s : String) : Bool :=
  match j with
  | .str t => t == s
  | _ => false

/-- Python truthiness of a decoded JSON value: None, False, 0, empty string,
empty list and empty dict are falsy, everything else truthy. -/
def truthy : Json → Bool
  | .null => false
  | .bool b => b
  | .num n => !(n == 0)
  | .str s => !(s == "")
  | .arr xs => !xs.isEmpty
  | .obj fs => !fs.isEmpty

/-- Failures the agent can raise.  The python source uses RuntimeError and
ValueError with formatted messages plus builtin exceptions; each constructor
records one of those failure shapes:
transport is the RuntimeError from a command that could not be run,
malformedResponse the ValueError from unparseable captured output (carrying
the raw output), phaseError the RuntimeError raised on an envelope with
success false (carrying the phase label of the format string and the
backend-supplied message object), noMatch the RuntimeError for an empty
match list in execute_task, and attributeError, keyError, typeError,
indexError the corresponding Python builtins. -/
inductive AgentError where
  | transport (msg : String)
  | malformedResponse (raw : String)
  | phaseError (phase : String) (message : Json)
  | noMatch
  | attributeError
  | keyError (key : String)
  | typeError
  | indexError

/-- Python d.get(key, default) on a decoded value.  On a non-dict the call
raises AttributeError. -/
def pyGetD (j : Json) (key : String) (dflt : Json) : Except AgentError Json :=
  match j with
  | .obj fields => .ok ((lookupField fields key).getD dflt)
  | _ => .error .attributeError

/-- Python d[key] subscription on a decoded value: KeyError on a missing
key, TypeError on a non-dict.  Subscription of strings and lists by integer
keys does not occur with a string key. -/
def pyIdx (j : Json) (key : String) : Except AgentError Json :=
  match j with
  | .obj fields =>
    match lookupField fields key with
    | some v => .ok v
    | none => .error (.keyError key)
  | _ => .error .typeError

/-- Python len on a decoded value: defined for lists, dicts and strings,
TypeError otherwise. -/
def pyLen : Json → Except AgentError Nat
  | .arr xs => .ok xs.length
  | .obj fs => .ok fs.length
  | .str s => .ok s.length
  | _ => .error .typeError

/-- Python xs[0] on a decoded list: IndexError when empty.  The program
only ever applies it after a truthiness check; a truthy non-list value
(already excluded upstream by len) is modelled as TypeError. -/
def pyIndexZero : Json → Except AgentError Json
  | .arr [] => .error .indexError
  | .arr (x :: _) => .ok x
  | _ => .error .typeError

/-- Iterating a decoded value as a list.  The suggested-batch operations
are iterated by the for loop at line 210; a decoded str would iterate per
character in Python, a shape no scenario produces, modelled as TypeError. -/
def asArr : Json → Except AgentError (List Json)
  | .arr xs => .ok xs
  | _ => .error .typeError

/-- The join at line 82 requires every element of tools to be a str;
otherwise Python raises TypeError before the backend command is built. -/
def joinCheck : List Json → Except AgentError Unit
  | [] => .ok ()
  | .str _ :: rest => joinCheck rest
  | _ :: _ => .error .typeError

/-- Line 92: data if isinstance(data, list) else [data].  A list-shaped
data field is kept as is, any other shape is wrapped in a one-element
list. -/
def normalizeSchemas : Json → List Json
  | .arr xs => xs
  | d => [d]

/-- Line 132: the transactional flag component of the batch command,
present in the command exactly when transactional is requested. -/
def txFlagString (transactional : Bool) : String :=
  if transactional then "--transactional" else ""

/-- The double-quote character. -/
def dquoteChar : Char := Char.ofNat 34

/-- The single-quote character. -/
def squoteChar : Char := Char.ofNat 39

/-- A one-character string holding a single quote, used to spell task
texts containing quoted file names. -/
def apos : String := String.mk [squoteChar]

/-- Quote characters of the path regex at line 172: double or single
quote. -/
def isQuoteChar (c : Char) : Bool := c == dquoteChar || c == squoteChar

/-- One attempt of the URL regex at line 164 anchored at the start of the
given character list: http, an optional s, colon-slash-slash, then a
maximal nonempty run of non-whitespace characters.  Returns the whole
match.  Python regex whitespace for ASCII input is the same class as
Char.isWhitespace up to form feed and vertical tab, which no modelled task
contains. -/
def urlAt : List Char → Option (List Char)
  | 'h' :: 't' :: 't' :: 'p' :: rest =>
    match rest with
    | 's' :: ':' :: '/' :: '/' :: r =>
      let run := r.takeWhile (fun c => !c.isWhitespace)
      if run.isEmpty then none else some ("https://".toList ++ run)
    | ':' :: '/' :: '/' :: r =>
      let run := r.takeWhile (fun c => !c.isWhitespace)
      if run.isEmpty then none else some ("http://".toList ++ run)
    | _ => none
  | _ => none

/-- One attempt of the quoted-path regex at line 172 anchored at the start
of the list: a quote character, a maximal nonempty run of non-quote
characters, then a quote character.  Returns the captured group, the run
between the quotes.  The run is maximal, so the character following it is
either a quote or the end of input; no shorter run can be followed by a
quote, hence no backtracking is needed. -/
def quotedAt : List Char → Option (List Char)
  | [] => none
  | c :: rest =>
    if isQuoteChar c then
      let run := rest.takeWhile (fun x => !isQuoteChar x)
      match rest.drop run.length with
      | q :: _ => if !run.isEmpty && isQuoteChar q then some run else none
      | [] => none
    else none

/-- re.search semantics: try the anchored matcher at each successive start
position from the left and return the first success. -/
def reSearch (m : List Char → Option (List Char)) : List Char → Option (List Char)
  | [] => m []
  | c :: rest =>
    match m (c :: rest) with
    | some r => some r
    | none => reSearch m rest

/-- re.search of the URL pattern over a task text, as a string. -/
def findUrl (task : String) : Option String :=
  (reSearch urlAt task.toList).map (fun l => String.mk l)

/-- re.search of the quoted-path pattern over a task text, returning the
captured group as a string. -/
def findQuoted (task : String) : Option String :=
  (reSearch quotedAt task.toList).map (fun l => String.mk l)

/-- MCPAgent.infer_arguments, lines 149 to 177.  A dict of inferred
arguments, built from per-tool heuristics on the task text alone; the
schema parameter is accepted but never read, and every branch, including
the fall-through for unknown tools, produces a dict, so the function is
total. -/
def infer_arguments (toolName : Json) (schema : Json) (task : String) :
    List (String × Json) :=
  if pyEqStr toolName "browser_navigate" then
    [("url", Json.str ((findUrl task).getD "https://example.com"))]
  else if pyEqStr toolName "browser_screenshot" then
    [("filename", Json.str "screenshot.png"), ("fullPage", Json.bool true)]
  else if pyEqStr toolName "read_file" then
    [("path", Json.str ((findQuoted task).getD "README.md"))]
  else []

/-- Captured outcome of one external process invocation: stdout, stderr
and the exit status, as returned by subprocess.run with check False. -/
structure ProcResult where
  stdout : String
  stderr : String
  returncode : Int

/-- MCPAgent._exec_mcp, lines 22 to 43, parameterised by the JSON reader:
the captured stdout is handed to the reader whatever the exit status is
(check is False and returncode is never consulted); when the output is not
valid JSON the ValueError carries the raw output. -/
def execMcp (parseJson : String → Option Json) (r : ProcResult) :
    Except AgentError Json :=
  match parseJson r.stdout with
  | some j => .ok j
  | none => .error (.malformedResponse r.stdout)

/-- The external MCP backend, one field per command shape the agent sends.
Each field yields the decoded response envelope for that command, or the
gateway-level failure (transport or malformed output) raised while
obtaining it.  Quantifying over this structure quantifies over all backend
behaviours. -/
structure Backend where
  discoverResp : String → Except AgentError Json
  schemaResp : Json → Json → Except AgentError Json
  execResp : Json → Json → List (String × Json) → Except AgentError Json
  batchResp : Json → List Json → Bool → Except AgentError Json

/-- One backend call made during a run, in the order issued. -/
inductive Call where
  | discover (task : String)
  | schema (server : Json) (tools : Json)
  | execTool (server : Json) (tool : Json) (args : List (String × Json))
  | batch (server : Json) (operations : List Json) (transactional : Bool)

/-- MCPAgent.discover, lines 45 to 73: send the discovery command, raise
on an envelope with success falsy (carrying the backend message, defaulted
to Unknown error), return the data field defaulted to an empty dict.  The
progress prints subscript the suggested batch and take len of matches and
of the operations, so those accesses are part of the control flow. -/
def discover (b : Backend) (task : String) : Except AgentError Json := do
  let response ← b.discoverResp task
  let success ← pyGetD response "success" .null
  if truthy success = false then
    let errObj ← pyGetD response "error" (.obj [])
    let msg ← pyGetD errObj "message" (.str "Unknown error")
    throw (.phaseError "Discovery failed" msg)
  else
    let result ← pyGetD response "data" (.obj [])
    let matchList ← pyGetD result "matches" (.arr [])
    let _ ← pyLen matchList
    let sb ← pyGetD result "suggested_batch" .null
    if truthy sb = true then
      let _ ← pyIdx sb "server"
      let ops ← pyIdx sb "operations"
      let _ ← pyLen ops
      let md ← pyGetD response "metadata" (.obj [])
      let _ ← pyGetD md "tokensEstimate" (.str "unknown")
      return result
    else
      let md ← pyGetD response "metadata" (.obj [])
      let _ ← pyGetD md "tokensEstimate" (.str "unknown")
      return result

/-- MCPAgent.load_schemas, lines 75 to 97: join the tool names into the
command (every name must be a str), send it, raise on an envelope with
success falsy, then normalise the data field, defaulted to None, into a
list of schemas. -/
def load_schemas (b : Backend) (server : Json) (tools : List Json) :
    Except AgentError (List Json) := do
  let _ ← joinCheck tools
  let response ← b.schemaResp server (.arr tools)
  let success ← pyGetD response "success" .null
  if truthy success = false then
    let errObj ← pyGetD response "error" (.obj [])
    let msg ← pyGetD errObj "message" (.str "Unknown error")
    throw (.phaseError "Schema loading failed" msg)
  else
    let data ← pyGetD response "data" .null
    let md ← pyGetD response "metadata" (.obj [])
    let _ ← pyGetD md "tokensEstimate" (.str "unknown")
    return normalizeSchemas data

/-- MCPAgent.exec_tool, lines 99 to 117: send the single-tool execution
command with the JSON-encoded arguments, raise on an envelope with success
falsy (the phase label Execution failed with the backend message), return
the data field defaulted to None. -/
def exec_tool (b : Backend) (server : Json) (tool : Json)
    (args : List (String × Json)) : Except AgentError Json := do
  let response ← b.execResp server tool args
  let success ← pyGetD response "success" .null
  if truthy success = false then
    let errObj ← pyGetD response "error" (.obj [])
    let msg ← pyGetD errObj "message" (.str "Unknown error")
    throw (.phaseError "Execution failed" msg)
  else
    let md ← pyGetD response "metadata" (.obj [])
    let _ ← pyGetD md "executionTime" (.str "unknown")
    pyGetD response "data" .null

/-- MCPAgent.batch, lines 119 to 147: build the batch command containing
the transactional flag component txFlagString transactional and the
JSON-encoded operations, send it, raise on an envelope with success falsy
(label Batch execution failed), return the data field defaulted to None.
The transactional argument is forwarded to the backend untouched; the
client applies no atomicity handling of its own. -/
def batchExec (b : Backend) (server : Json) (operations : List Json)
    (transactional : Bool) : Except AgentError Json := do
  let _flag := txFlagString transactional
  let response ← b.batchResp server operations transactional
  let success ← pyGetD response "success" .null
  if truthy success = false then
    let errObj ← pyGetD response "error" (.obj [])
    let msg ← pyGetD errObj "message" (.str "Unknown error")
    throw (.phaseError "Batch execution failed" msg)
  else
    let md ← pyGetD response "metadata" (.obj [])
    let _ ← pyGetD md "executionTime" (.str "unknown")
    pyGetD response "data" .null

/-- The generator at line 211: first schema whose name field equals the
tool name, with None as default.  Subscripting a schema without a name
field raises, exactly as s[name] does in the lazily evaluated generator:
schemas after the first hit are not examined. -/
def findSchema (schemas : List Json) (toolName : Json) :
    Except AgentError Json :=
  match schemas with
  | [] => .ok .null
  | s :: rest =>
    match pyIdx s "name" with
    | .error e => .error e
    | .ok nm => if jsonEq nm toolName then .ok s else findSchema rest toolName

/-- The loop at lines 209 to 213: for each operation name, look up its
schema (absent gives None), infer arguments, and append the dict with the
tool and args fields, preserving order. -/
def buildBatchOps (schemas : List Json) (operations : List Json)
    (task : String) : Except AgentError (List Json) :=
  match operations with
  | [] => .ok []
  | op :: rest =>
    match findSchema schemas op with
    | .error e => .error e
    | .ok sch =>
      let args := infer_arguments op sch task
      match buildBatchOps schemas rest task with
      | .error e => .error e
      | .ok more => .ok (Json.obj [("tool", op), ("args", Json.obj args)] :: more)

/-- MCPAgent.execute_task, lines 179 to 234, paired with the list of
backend calls issued, in order.  Discovery runs first; an empty match list
aborts the run before any further backend call; a truthy suggested batch
selects the batch strategy, otherwise the single-tool strategy uses the
first element of matches as returned.  The joinCheck guard before the
schema trace entry repeats the check performed inside load_schemas so that
the trace only records commands that were actually sent. -/
def execute_task (b : Backend) (task : String) :
    Except AgentError Json × List Call :=
  let t0 : List Call := [Call.discover task]
  match discover b task with
  | .error e => (.error e, t0)
  | .ok discovery =>
    match pyGetD discovery "matches" (.arr []) with
    | .error e => (.error e, t0)
    | .ok matchList =>
      if truthy matchList = false then (.error .noMatch, t0)
      else
        match pyGetD discovery "suggested_batch" .null with
        | .error e => (.error e, t0)
        | .ok sb =>
          if truthy sb = true then
            match pyIdx sb "server" with
            | .error e => (.error e, t0)
            | .ok server =>
              match pyIdx sb "operations" with
              | .error e => (.error e, t0)
              | .ok opsJ =>
                match asArr opsJ with
                | .error e => (.error e, t0)
                | .ok operations =>
                  match joinCheck operations with
                  | .error e => (.error e, t0)
                  | .ok _ =>
                    let t1 := t0 ++ [Call.schema server (.arr operations)]
                    match load_schemas b server operations with
                    | .error e => (.error e, t1)
                    | .ok schemas =>
                      match buildBatchOps schemas operations task with
                      | .error e => (.error e, t1)
                      | .ok bops =>
                        (batchExec b server bops false,
                         t1 ++ [Call.batch server bops false])
          else
            match pyIndexZero matchList with
            | .error e => (.error e, t0)
            | .ok topMatch =>
              match pyIdx topMatch "confidence" with
              | .error e => (.error e, t0)
              | .ok _ =>
                match pyIdx topMatch "server" with
                | .error e => (.error e, t0)
                | .ok srv =>
                  match pyIdx topMatch "tool" with
                  | .error e => (.error e, t0)
                  | .ok tool =>
                    match joinCheck [tool] with
                    | .error e => (.error e, t0)
                    | .ok _ =>
                      let t1 := t0 ++ [Call.schema srv (.arr [tool])]
                      match load_schemas b srv [tool] with
                      | .error e => (.error e, t1)
                      | .ok schemas =>
                        match schemas.head? with
                        | none => (.error .indexError, t1)
                        | some s0 =>
                          let args := infer_arguments tool s0 task
                          (exec_tool b srv tool args,
                           t1 ++ [Call.execTool srv tool args])

/-- The main entry point, lines 237 to 258, reduced to its exit status:
argv is the list of command-line arguments after the program name; with no
task argument the usage message exits 1, otherwise any exception from
execute_task exits 1 and success exits 0. -/
def runMain (b : Backend) (argv : List String) : Nat :=
  match argv with
  | [] => 1
  | task :: _ =>
    match (execute_task b task).1 with
    | .ok _ => 0
    | .error _ => 1

/-- Shared path lemma: whenever discovery succeeds with a truthy match
list and a falsy suggested batch, and the schema phase for the first match
yields a nonempty schema list, execute_task runs the single-tool strategy:
it infers arguments from the first schema element and issues exactly the
three calls discover, schema, execTool. -/
theorem execute_task_single_path
    (b : Backend) (task : String) (d matchesJ sb m c srv tool s0 : Json)
    (srest : List Json)
    (hd : discover b task = .ok d)
    (hm : pyGetD d "matches" (.arr []) = .ok matchesJ)
    (hmt : truthy matchesJ = true)
    (hsb : pyGetD d "suggested_batch" .null = .ok sb)
    (hsbf : truthy sb = false)
    (h0 : pyIndexZero matchesJ = .ok m)
    (hc : pyIdx m "confidence" = .ok c)
    (hsrv : pyIdx m "server" = .ok srv)
    (htool : pyIdx m "tool" = .ok tool)
    (hjoin : joinCheck [tool] = .ok ())
    (hls : load_schemas b srv [tool] = .ok (s0 :: srest)) :
    execute_task b task =
      (exec_tool b srv tool (infer_arguments tool s0 task),
       [Call.discover task, Call.schema srv (.arr [tool]),
        Call.execTool srv tool (infer_arguments tool s0 task)]) := by
  simp only [execute_task, hd, hm, hmt, hsb, hsbf, h0, hc, hsrv, htool, hjoin,
    hls]
  rfl

/-- Shared path lemma: whenever discovery succeeds with a truthy match
list and a truthy, well-shaped suggested batch, and the schema phase and
operation assembly succeed, execute_task runs the batch strategy: it
issues exactly the three calls discover, schema, batch, the last one with
the transactional flag false. -/
theorem execute_task_batch_path
    (b : Backend) (task : String) (d matchesJ sb server opsJ : Json)
    (operations schemas bops : List Json)
    (hd : discover b task = .ok d)
    (hm : pyGetD d "matches" (.arr []) = .ok matchesJ)
    (hmt : truthy matchesJ = true)
    (hsb : pyGetD d "suggested_batch" .null = .ok sb)
    (hsbt : truthy sb = true)
    (hsrv : pyIdx sb "server" = .ok server)
    (hops : pyIdx sb "operations" = .ok opsJ)
    (harr : asArr opsJ = .ok operations)
    (hjoin : joinCheck operations = .ok ())
    (hls : load_schemas b server operations = .ok schemas)
    (hbuild : buildBatchOps schemas operations task = .ok bops) :
    execute_task b task =
      (batchExec b server bops false,
       [Call.discover task, Call.schema server (.arr operations),
        Call.batch server bops false]) := by
  simp only [execute_task, hd, hm, hmt, hsb, hsbt, hsrv, hops, harr, hjoin,
    hls, hbuild]
  rfl
/-- Claim C1: for every Discovery response, a present (truthy) suggested
batch makes the orchestrator take the batch strategy, loading schemas for
the operations of the batch and calling the batch execution; without a
suggested batch it takes the single-tool strategy on the element at index
0 of the matches sequence exactly as returned (pyIndexZero takes the head
of the sequence; the remaining matches, whatever their confidences, do not
influence the chosen tool, so no re-sorting happens). -/
theorem claim_strategy_selection
    (b : Backend) (task : String) (d matchesJ sb : Json)
    (hd : discover b task = .ok d)
    (hm : pyGetD d "matches" (.arr []) = .ok matchesJ)
    (hmt : truthy matchesJ = true)
    (hsb : pyGetD d "suggested_batch" .null = .ok sb) :
    (truthy sb = true →
      ∀ (server opsJ : Json) (operations schemas bops : List Json),
        pyIdx sb "server" = .ok server →
        pyIdx sb "operations" = .ok opsJ →
        asArr opsJ = .ok operations →
        joinCheck operations = .ok () →
        load_schemas b server operations = .ok schemas →
        buildBatchOps schemas operations task = .ok bops →
        execute_task b task =
          (batchExec b server bops false,
           [Call.discover task, Call.schema server (.arr operations),
            Call.batch server bops false]))
    ∧ (truthy sb = false →
      ∀ (m c srv tool s0 : Json) (srest : List Json),
        pyIndexZero matchesJ = .ok m →
        pyIdx m "confidence" = .ok c →
        pyIdx m "server" = .ok srv →
        pyIdx m "tool" = .ok tool →
        joinCheck [tool] = .ok () →
        load_schemas b srv [tool] = .ok (s0 :: srest) →
        execute_task b task =
          (exec_tool b srv tool (infer_arguments tool s0 task),
           [Call.discover task, Call.schema srv (.arr [tool]),
            Call.execTool srv tool (infer_arguments tool s0 task)])) := by
  constructor
  · intro hsbt server opsJ operations schemas bops hsrv hops harr hjoin hls hbuild
    exact execute_task_batch_path b task d matchesJ sb server opsJ operations
      schemas bops hd hm hmt hsb hsbt hsrv hops harr hjoin hls hbuild
  · intro hsbf m c srv tool s0 srest h0 hc hsrv htool hjoin hls
    exact execute_task_single_path b task d matchesJ sb m c srv tool s0 srest
      hd hm hmt hsb hsbf h0 hc hsrv htool hjoin hls

/-- A backend whose discovery response suggests a two-operation browser
batch, used to exercise the batch branch of claim C1. -/
def wBatchBackend : Backend :=
  { discoverResp := fun _ => .ok (.obj [("success", .bool true),
      ("data", .obj [
        ("matches", .arr [Json.obj [("server", .str "browser"),
          ("tool", .str "browser_navigate"), ("confidence", .num 1)]]),
        ("suggested_batch", .obj [("server", .str "browser"),
          ("operations",
           .arr [.str "browser_navigate", .str "browser_screenshot"])])])])
    schemaResp := fun _ _ => .ok (.obj [("success", .bool true),
      ("data", .arr [Json.obj [("name", .str "browser_navigate")],
                     Json.obj [("name", .str "browser_screenshot")]])])
    execResp := fun _ _ _ => .ok (.obj [("success", .bool true), ("data", .null)])
    batchResp := fun _ _ _ =>
      .ok (.obj [("success", .bool true), ("data", .str "batched")]) }

/-- The operations execute_task assembles for wBatchBackend: the task text
contains no URL, so navigation falls back to the default URL. -/
def wBatchOps : List Json :=
  [Json.obj [("tool", .str "browser_navigate"),
    ("args", Json.obj [("url", .str "https://example.com")])],
   Json.obj [("tool", .str "browser_screenshot"),
    ("args", Json.obj [("filename", .str "screenshot.png"),
      ("fullPage", .bool true)])]]

/-- A backend whose discovery response has one match and no suggested
batch, used to exercise the single-tool branch of claim C1. -/
def wSingleBackend : Backend :=
  { discoverResp := fun _ => .ok (.obj [("success", .bool true),
      ("data", .obj [("matches", .arr [Json.obj [("server", .str "fs"),
        ("tool", .str "read_file"), ("confidence", .num 1)]])])])
    schemaResp := fun _ _ => .ok (.obj [("success", .bool true),
      ("data", .obj [("name", .str "read_file")])])
    execResp := fun _ _ _ =>
      .ok (.obj [("success", .bool true), ("data", .str "contents")])
    batchResp := fun _ _ _ => .ok .null }

/-- Witness for claim C1: both branches of the strategy selection theorem
evaluated on concrete backends. -/
theorem claim_strategy_selection_witness :
    execute_task wBatchBackend "navigate and shoot" =
      (.ok (.str "batched"),
       [Call.discover "navigate and shoot",
        Call.schema (.str "browser")
          (.arr [.str "browser_navigate", .str "browser_screenshot"]),
        Call.batch (.str "browser") wBatchOps false])
    ∧ execute_task wSingleBackend "open README" =
      (.ok (.str "contents"),
       [Call.discover "open README",
        Call.schema (.str "fs") (.arr [.str "read_file"]),
        Call.execTool (.str "fs") (.str "read_file")
          [("path", .str "README.md")]]) := by
  constructor
  · have h := (claim_strategy_selection wBatchBackend "navigate and shoot"
      (.obj [
        ("matches", .arr [Json.obj [("server", .str "browser"),
          ("tool", .str "browser_navigate"), ("confidence", .num 1)]]),
        ("suggested_batch", .obj [("server", .str "browser"),
          ("operations",
           .arr [.str "browser_navigate", .str "browser_screenshot"])])])
      (.arr [Json.obj [("server", .str "browser"),
        ("tool", .str "browser_navigate"), ("confidence", .num 1)]])
      (.obj [("server", .str "browser"),
        ("operations",
         .arr [.str "browser_navigate", .str "browser_screenshot"])])
      rfl rfl rfl rfl).1 rfl (.str "browser")
      (.arr [.str "browser_navigate", .str "browser_screenshot"])
      [.str "browser_navigate", .str "browser_screenshot"]
      [Json.obj [("name", .str "browser_navigate")],
       Json.obj [("name", .str "browser_screenshot")]]
      wBatchOps rfl rfl rfl rfl rfl rfl
    rw [h]
    rfl
  · have h := (claim_strategy_selection wSingleBackend "open README"
      (.obj [("matches", .arr [Json.obj [("server", .str "fs"),
        ("tool", .str "read_file"), ("confidence", .num 1)]])])
      (.arr [Json.obj [("server", .str "fs"),
        ("tool", .str "read_file"), ("confidence", .num 1)]])
      .null rfl rfl rfl rfl).2 rfl
      (Json.obj [("server", .str "fs"), ("tool", .str "read_file"),
        ("confidence", .num 1)])
      (.num 1) (.str "fs") (.str "read_file") (.obj [("name", .str "read_file")])
      [] rfl rfl rfl rfl rfl rfl
    rw [h]
    rfl
/-- Claim C2: when discovery succeeds but the match sequence is empty
(falsy), the run terminates with the no-match failure and the trace holds
only the discovery call, so no schema or execution command is ever sent. -/
theorem claim_no_match_terminates
    (b : Backend) (task : String) (d matchesJ : Json)
    (hd : discover b task = .ok d)
    (hm : pyGetD d "matches" (.arr []) = .ok matchesJ)
    (hmt : truthy matchesJ = false) :
    execute_task b task = (.error .noMatch, [Call.discover task]) := by
  simp only [execute_task, hd, hm, hmt]
  rfl

/-- A backend whose discovery response has an empty match list. -/
def wNoMatchBackend : Backend :=
  { discoverResp := fun _ => .ok (.obj [("success", .bool true),
      ("data", .obj [("matches", .arr [])])])
    schemaResp := fun _ _ => .ok .null
    execResp := fun _ _ _ => .ok .null
    batchResp := fun _ _ _ => .ok .null }

/-- Witness for claim C2 on a concrete empty-match backend. -/
theorem claim_no_match_terminates_witness :
    execute_task wNoMatchBackend "mystery task" =
      (.error .noMatch, [Call.discover "mystery task"]) :=
  claim_no_match_terminates wNoMatchBackend "mystery task"
    (.obj [("matches", .arr [])]) (.arr []) rfl rfl rfl

/-- Claim C3: on a successful schema response, load_schemas returns the
normalised data field, and the normalisation maps a list-shaped data field
to a sequence of the same length (in particular the empty list to the
empty sequence) and a single schema object to a one-element sequence, so
the sequence length equals the number of schemas the backend returned in
both shapes of the schema contract. -/
theorem claim_schema_normalization :
    (∀ (b : Backend) (server : Json) (tools : List Json) (sd : Json),
      joinCheck tools = .ok () →
      b.schemaResp server (.arr tools) =
        .ok (.obj [("success", .bool true), ("data", sd)]) →
      load_schemas b server tools = .ok (normalizeSchemas sd))
    ∧ (∀ xs : List Json, (normalizeSchemas (.arr xs)).length = xs.length)
    ∧ (∀ fs : List (String × Json), (normalizeSchemas (.obj fs)).length = 1)
    ∧ normalizeSchemas (.arr []) = [] := by
  refine ⟨?_, fun xs => rfl, fun fs => rfl, rfl⟩
  intro b server tools sd hj hb
  simp only [load_schemas, hj, hb]
  rfl

/-- A backend answering the schema command with a single schema object. -/
def wSchemaBackend : Backend :=
  { discoverResp := fun _ => .ok .null
    schemaResp := fun _ _ => .ok (.obj [("success", .bool true),
      ("data", .obj [("name", .str "read_file")])])
    execResp := fun _ _ _ => .ok .null
    batchResp := fun _ _ _ => .ok .null }

/-- Witness for claim C3: a single-object data field normalises to a
one-element schema sequence on a concrete backend. -/
theorem claim_schema_normalization_witness :
    load_schemas wSchemaBackend (.str "fs") [.str "read_file"] =
      .ok [.obj [("name", .str "read_file")]] :=
  claim_schema_normalization.1 wSchemaBackend (.str "fs") [.str "read_file"]
    (.obj [("name", .str "read_file")]) rfl rfl

/-- Claim C4: when the backend answers the single-tool execution command
with success false and the error message server unreachable, the run fails
with the execution phase error whose backend-supplied message is carried
unchanged, and the process exit status is 1. -/
theorem claim_execution_failure_message
    (b : Backend) (task : String) (d matchesJ sb m c srv tool s0 : Json)
    (srest : List Json)
    (hd : discover b task = .ok d)
    (hm : pyGetD d "matches" (.arr []) = .ok matchesJ)
    (hmt : truthy matchesJ = true)
    (hsb : pyGetD d "suggested_batch" .null = .ok sb)
    (hsbf : truthy sb = false)
    (h0 : pyIndexZero matchesJ = .ok m)
    (hc : pyIdx m "confidence" = .ok c)
    (hsrv : pyIdx m "server" = .ok srv)
    (htool : pyIdx m "tool" = .ok tool)
    (hjoin : joinCheck [tool] = .ok ())
    (hls : load_schemas b srv [tool] = .ok (s0 :: srest))
    (hexec : b.execResp srv tool (infer_arguments tool s0 task) =
      .ok (.obj [("success", .bool false),
        ("error", .obj [("message", .str "server unreachable")])])) :
    (execute_task b task).1 =
      .error (.phaseError "Execution failed" (.str "server unreachable"))
    ∧ runMain b [task] = 1 := by
  have h := execute_task_single_path b task d matchesJ sb m c srv tool s0
    srest hd hm hmt hsb hsbf h0 hc hsrv htool hjoin hls
  have he : exec_tool b srv tool (infer_arguments tool s0 task) =
      .error (.phaseError "Execution failed" (.str "server unreachable")) := by
    simp only [exec_tool, hexec]
    rfl
  refine ⟨?_, ?_⟩
  · rw [h]
    exact he
  · simp only [runMain, h, he]

/-- A backend whose execution command fails with the message server
unreachable. -/
def wUnreachableBackend : Backend :=
  { discoverResp := fun _ => .ok (.obj [("success", .bool true),
      ("data", .obj [("matches", .arr [Json.obj [("server", .str "fs"),
        ("tool", .str "read_file"), ("confidence", .num 1)]])])])
    schemaResp := fun _ _ => .ok (.obj [("success", .bool true),
      ("data", .obj [("name", .str "read_file")])])
    execResp := fun _ _ _ => .ok (.obj [("success", .bool false),
      ("error", .obj [("message", .str "server unreachable")])])
    batchResp := fun _ _ _ => .ok .null }

/-- Witness for claim C4 on a concrete backend whose execution call
reports failure. -/
theorem claim_execution_failure_message_witness :
    (execute_task wUnreachableBackend "read it").1 =
      .error (.phaseError "Execution failed" (.str "server unreachable"))
    ∧ runMain wUnreachableBackend ["read it"] = 1 :=
  claim_execution_failure_message wUnreachableBackend "read it"
    (.obj [("matches", .arr [Json.obj [("server", .str "fs"),
      ("tool", .str "read_file"), ("confidence", .num 1)]])])
    (.arr [Json.obj [("server", .str "fs"), ("tool", .str "read_file"),
      ("confidence", .num 1)]])
    .null
    (Json.obj [("server", .str "fs"), ("tool", .str "read_file"),
      ("confidence", .num 1)])
    (.num 1) (.str "fs") (.str "read_file")
    (.obj [("name", .str "read_file")]) []
    rfl rfl rfl rfl rfl rfl rfl rfl rfl rfl rfl rfl
/-- A backend whose schema response carries an empty list: the backend
returned zero schemas although discovery produced a single-tool match. -/
def wEmptySchemaBackend : Backend :=
  { discoverResp := fun _ => .ok (.obj [("success", .bool true),
      ("data", .obj [("matches", .arr [Json.obj [("server", .str "fs"),
        ("tool", .str "read_file"), ("confidence", .num 1)]])])])
    schemaResp := fun _ _ => .ok (.obj [("success", .bool true),
      ("data", .arr [])])
    execResp := fun _ _ _ => .ok (.obj [("success", .bool true), ("data", .null)])
    batchResp := fun _ _ _ => .ok .null }

/-- Counterexample to claim C5 as stated: with a successful schema
response whose data is the empty list, the single-tool path does not
complete argument inference; the subscription schemas[0] at line 231
raises IndexError and the run aborts after the schema call, before any
inference or execution. -/
theorem claim_schema_tolerance_counterexample :
    execute_task wEmptySchemaBackend "read something" =
      (.error .indexError,
       [Call.discover "read something",
        Call.schema (.str "fs") (.arr [.str "read_file"])]) := rfl

/-- Claim C5 as amended: downstream tolerance of partial schema knowledge
holds only for nonempty schema sequences.  On the single-tool path any
first schema element, including None or a schema that does not belong to
the requested tool, lets argument inference complete and execution
proceed; on the batch path a tool whose schema is absent gets None from
the lookup, which inference accepts.  An empty schema sequence on the
single-tool path fails with IndexError. -/
theorem claim_schema_tolerance_amended
    (b : Backend) (task : String) (d matchesJ sb m c srv tool s0 : Json)
    (srest : List Json)
    (hd : discover b task = .ok d)
    (hm : pyGetD d "matches" (.arr []) = .ok matchesJ)
    (hmt : truthy matchesJ = true)
    (hsb : pyGetD d "suggested_batch" .null = .ok sb)
    (hsbf : truthy sb = false)
    (h0 : pyIndexZero matchesJ = .ok m)
    (hc : pyIdx m "confidence" = .ok c)
    (hsrv : pyIdx m "server" = .ok srv)
    (htool : pyIdx m "tool" = .ok tool)
    (hjoin : joinCheck [tool] = .ok ())
    (hls : load_schemas b srv [tool] = .ok (s0 :: srest)) :
    execute_task b task =
      (exec_tool b srv tool (infer_arguments tool s0 task),
       [Call.discover task, Call.schema srv (.arr [tool]),
        Call.execTool srv tool (infer_arguments tool s0 task)])
    ∧ (∀ tn : Json, findSchema [] tn = .ok .null) := by
  refine ⟨?_, fun tn => rfl⟩
  exact execute_task_single_path b task d matchesJ sb m c srv tool s0 srest
    hd hm hmt hsb hsbf h0 hc hsrv htool hjoin hls

/-- A backend whose schema response is the one-element list holding None:
the schema sequence is nonempty but carries no schema for the requested
tool. -/
def wNullSchemaBackend : Backend :=
  { discoverResp := fun _ => .ok (.obj [("success", .bool true),
      ("data", .obj [("matches", .arr [Json.obj [("server", .str "fs"),
        ("tool", .str "read_file"), ("confidence", .num 1)]])])])
    schemaResp := fun _ _ => .ok (.obj [("success", .bool true),
      ("data", .arr [.null])])
    execResp := fun _ _ _ => .ok (.obj [("success", .bool true),
      ("data", .str "ok")])
    batchResp := fun _ _ _ => .ok .null }

/-- Witness for the amended claim C5: a nonempty schema sequence whose
only element is None still lets the single-tool path infer arguments and
execute. -/
theorem claim_schema_tolerance_amended_witness :
    execute_task wNullSchemaBackend "read stuff" =
      (exec_tool wNullSchemaBackend (.str "fs") (.str "read_file")
        (infer_arguments (.str "read_file") .null "read stuff"),
       [Call.discover "read stuff",
        Call.schema (.str "fs") (.arr [.str "read_file"]),
        Call.execTool (.str "fs") (.str "read_file")
          (infer_arguments (.str "read_file") .null "read stuff")])
    ∧ (∀ tn : Json, findSchema [] tn = .ok .null) :=
  claim_schema_tolerance_amended wNullSchemaBackend "read stuff"
    (.obj [("matches", .arr [Json.obj [("server", .str "fs"),
      ("tool", .str "read_file"), ("confidence", .num 1)]])])
    (.arr [Json.obj [("server", .str "fs"), ("tool", .str "read_file"),
      ("confidence", .num 1)]])
    .null
    (Json.obj [("server", .str "fs"), ("tool", .str "read_file"),
      ("confidence", .num 1)])
    (.num 1) (.str "fs") (.str "read_file") .null []
    rfl rfl rfl rfl rfl rfl rfl rfl rfl rfl rfl

/-- Claim C6: infer_arguments is a total function of the embedding, so it
returns an argument dict and raises nothing for every tool name, schema
and task text; the four conjuncts pin the safe defaults of each branch
when no pattern matches the task text: the default URL for navigation,
the fixed screenshot arguments, the default README path, and the empty
dict for tools outside the heuristics. -/
theorem claim_infer_arguments_total
    (toolName schemaV : Json) (task : String) :
    (toolName = .str "browser_navigate" → findUrl task = none →
      infer_arguments toolName schemaV task =
        [("url", .str "https://example.com")])
    ∧ (toolName = .str "browser_screenshot" →
      infer_arguments toolName schemaV task =
        [("filename", .str "screenshot.png"), ("fullPage", .bool true)])
    ∧ (toolName = .str "read_file" → findQuoted task = none →
      infer_arguments toolName schemaV task = [("path", .str "README.md")])
    ∧ (pyEqStr toolName "browser_navigate" = false →
       pyEqStr toolName "browser_screenshot" = false →
       pyEqStr toolName "read_file" = false →
      infer_arguments toolName schemaV task = []) := by
  refine ⟨?_, ?_, ?_, ?_⟩
  · intro h hurl
    subst h
    have hu : infer_arguments (.str "browser_navigate") schemaV task =
        [("url", Json.str ((findUrl task).getD "https://example.com"))] := rfl
    rw [hu, hurl]
    rfl
  · intro h
    subst h
    rfl
  · intro h hq
    subst h
    have hp : infer_arguments (.str "read_file") schemaV task =
        [("path", Json.str ((findQuoted task).getD "README.md"))] := rfl
    rw [hp, hq]
    rfl
  · intro h1 h2 h3
    simp only [infer_arguments, h1, h2, h3]
    rfl

/-- Witness for claim C6: the empty task text has no quoted path, so the
read_file branch falls back to the default path. -/
theorem claim_infer_arguments_total_witness :
    infer_arguments (.str "read_file") .null "" = [("path", .str "README.md")] :=
  (claim_infer_arguments_total (.str "read_file") .null "").2.2.1 rfl rfl

/-- Claim C7: the transactional flag component of the batch command is the
flag token exactly when transactional is requested and empty otherwise;
the batch call depends on the backend only through the single batch
request carrying the very flag the caller passed (so the client adds no
atomicity handling of its own around it); and the orchestrator batch path
invokes the batch execution with transactional false. -/
theorem claim_transactional_passthrough
    (b : Backend) (task : String) (d matchesJ sb server opsJ : Json)
    (operations schemas bops : List Json)
    (hd : discover b task = .ok d)
    (hm : pyGetD d "matches" (.arr []) = .ok matchesJ)
    (hmt : truthy matchesJ = true)
    (hsb : pyGetD d "suggested_batch" .null = .ok sb)
    (hsbt : truthy sb = true)
    (hsrv : pyIdx sb "server" = .ok server)
    (hops : pyIdx sb "operations" = .ok opsJ)
    (harr : asArr opsJ = .ok operations)
    (hjoin : joinCheck operations = .ok ())
    (hls : load_schemas b server operations = .ok schemas)
    (hbuild : buildBatchOps schemas operations task = .ok bops) :
    ((∀ t : Bool, txFlagString t = "--transactional" ↔ t = true)
      ∧ txFlagString false = "")
    ∧ (∀ (t : Bool) (b2 : Backend),
        b2.batchResp server bops t = b.batchResp server bops t →
        batchExec b2 server bops t = batchExec b server bops t)
    ∧ execute_task b task =
        (batchExec b server bops false,
         [Call.discover task, Call.schema server (.arr operations),
          Call.batch server bops false]) := by
  refine ⟨⟨?_, rfl⟩, ?_, ?_⟩
  · intro t
    cases t <;> simp [txFlagString]
  · intro t b2 hsame
    simp only [batchExec, hsame]
  · exact execute_task_batch_path b task d matchesJ sb server opsJ operations
      schemas bops hd hm hmt hsb hsbt hsrv hops harr hjoin hls hbuild

/-- A backend suggesting a browser batch, used to witness claim C7. -/
def wTxBackend : Backend :=
  { discoverResp := fun _ => .ok (.obj [("success", .bool true),
      ("data", .obj [
        ("matches", .arr [Json.obj [("server", .str "browser"),
          ("tool", .str "browser_screenshot"), ("confidence", .num 1)]]),
        ("suggested_batch", .obj [("server", .str "browser"),
          ("operations", .arr [.str "browser_screenshot"])])])])
    schemaResp := fun _ _ => .ok (.obj [("success", .bool true),
      ("data", .arr [Json.obj [("name", .str "browser_screenshot")]])])
    execResp := fun _ _ _ => .ok .null
    batchResp := fun _ _ _ =>
      .ok (.obj [("success", .bool true), ("data", .str "shot")]) }

/-- The single operation execute_task assembles for wTxBackend. -/
def wTxOps : List Json :=
  [Json.obj [("tool", .str "browser_screenshot"),
    ("args", Json.obj [("filename", .str "screenshot.png"),
      ("fullPage", .bool true)])]]

/-- Witness for claim C7: on a concrete batch backend, the orchestrator
calls the batch execution with the transactional flag false. -/
theorem claim_transactional_passthrough_witness :
    execute_task wTxBackend "screenshot please" =
      (batchExec wTxBackend (.str "browser") wTxOps false,
       [Call.discover "screenshot please",
        Call.schema (.str "browser") (.arr [.str "browser_screenshot"]),
        Call.batch (.str "browser") wTxOps false]) :=
  (claim_transactional_passthrough wTxBackend "screenshot please"
    (.obj [
      ("matches", .arr [Json.obj [("server", .str "browser"),
        ("tool", .str "browser_screenshot"), ("confidence", .num 1)]]),
      ("suggested_batch", .obj [("server", .str "browser"),
        ("operations", .arr [.str "browser_screenshot"])])])
    (.arr [Json.obj [("server", .str "browser"),
      ("tool", .str "browser_screenshot"), ("confidence", .num 1)]])
    (.obj [("server", .str "browser"),
      ("operations", .arr [.str "browser_screenshot"])])
    (.str "browser") (.arr [.str "browser_screenshot"])
    [.str "browser_screenshot"]
    [Json.obj [("name", .str "browser_screenshot")]]
    wTxOps
    rfl rfl rfl rfl rfl rfl rfl rfl rfl rfl rfl).2.2
/-- Claim C8: the command gateway hands the captured stdout to the JSON
reader whatever the exit status and stderr of the external process were
(the two invocations below differ only in those), and when the captured
output is not valid JSON it fails with the malformed-response error
carrying the raw output. -/
theorem claim_gateway_parses_stdout
    (parseJson : String → Option Json) (out err1 err2 : String)
    (rc1 rc2 : Int) :
    execMcp parseJson ⟨out, err1, rc1⟩ = execMcp parseJson ⟨out, err2, rc2⟩
    ∧ (parseJson out = none →
      execMcp parseJson ⟨out, err1, rc1⟩ = .error (.malformedResponse out)) := by
  refine ⟨rfl, ?_⟩
  intro h
  simp only [execMcp, h]

/-- Witness for claim C8: a reader rejecting the captured output makes
the gateway fail with the raw output, independently of the exit status. -/
theorem claim_gateway_parses_stdout_witness :
    execMcp (fun _ => none) ⟨"not json", "warning", 0⟩ =
      execMcp (fun _ => none) ⟨"not json", "", 1⟩
    ∧ execMcp (fun _ => none) ⟨"not json", "warning", 0⟩ =
      .error (.malformedResponse "not json") :=
  ⟨(claim_gateway_parses_stdout (fun _ => none) "not json" "warning" "" 0 1).1,
   (claim_gateway_parses_stdout (fun _ => none) "not json" "warning" "" 0 1).2
     rfl⟩

/-- The scenario A task text: read the file, with the file name in single
quotes. -/
def scenarioATask : String := "read the file " ++ apos ++ "notes.txt" ++ apos

/-- The scenario A discovery envelope: one match for the read_file tool of
the fs server at confidence 0.9 and no suggested batch. -/
def scenarioAEnvelope : Json :=
  .obj [("success", .bool true),
    ("data", .obj [("matches", .arr [Json.obj [("server", .str "fs"),
      ("tool", .str "read_file"), ("confidence", .num (9 / 10))]])])]

/-- Claim C9: on the scenario A task, with the scenario A discovery
response and a schema response carrying one schema object, the
orchestrator loads that single schema, inference extracts the quoted path
notes.txt, and the single-tool execution for the fs server and the
read_file tool with that path is issued exactly once. -/
theorem claim_scenario_a
    (b : Backend) (sd : Json) (flds : List (String × Json))
    (hd : b.discoverResp scenarioATask = .ok scenarioAEnvelope)
    (hs : b.schemaResp (.str "fs") (.arr [.str "read_file"]) =
      .ok (.obj [("success", .bool true), ("data", sd)]))
    (hsd : sd = .obj flds) :
    execute_task b scenarioATask =
      (exec_tool b (.str "fs") (.str "read_file")
        [("path", .str "notes.txt")],
       [Call.discover scenarioATask,
        Call.schema (.str "fs") (.arr [.str "read_file"]),
        Call.execTool (.str "fs") (.str "read_file")
          [("path", .str "notes.txt")]])
    ∧ (execute_task b scenarioATask).2.countP
        (fun call => match call with
          | Call.execTool _ _ _ => true
          | _ => false) = 1 := by
  subst hsd
  have hdisc : discover b scenarioATask =
      .ok (.obj [("matches", .arr [Json.obj [("server", .str "fs"),
        ("tool", .str "read_file"), ("confidence", .num (9 / 10))]])]) := by
    simp only [discover, hd]
    rfl
  have hload : load_schemas b (.str "fs") [.str "read_file"] =
      .ok [.obj flds] := by
    simp only [load_schemas, hs]
    rfl
  have hinf : infer_arguments (.str "read_file") (.obj flds) scenarioATask =
      [("path", Json.str "notes.txt")] := rfl
  have h := execute_task_single_path b scenarioATask
    (.obj [("matches", .arr [Json.obj [("server", .str "fs"),
      ("tool", .str "read_file"), ("confidence", .num (9 / 10))]])])
    (.arr [Json.obj [("server", .str "fs"), ("tool", .str "read_file"),
      ("confidence", .num (9 / 10))]])
    .null
    (Json.obj [("server", .str "fs"), ("tool", .str "read_file"),
      ("confidence", .num (9 / 10))])
    (.num (9 / 10)) (.str "fs") (.str "read_file") (.obj flds) []
    hdisc rfl rfl rfl rfl rfl rfl rfl rfl rfl hload
  rw [hinf] at h
  refine ⟨h, ?_⟩
  rw [h]
  rfl

/-- A backend realising scenario A. -/
def wScenarioABackend : Backend :=
  { discoverResp := fun _ => .ok scenarioAEnvelope
    schemaResp := fun _ _ => .ok (.obj [("success", .bool true),
      ("data", .obj [("name", .str "read_file")])])
    execResp := fun _ _ _ => .ok (.obj [("success", .bool true),
      ("data", .str "file contents")])
    batchResp := fun _ _ _ => .ok .null }

/-- Witness for claim C9 on the concrete scenario A backend. -/
theorem claim_scenario_a_witness :
    execute_task wScenarioABackend scenarioATask =
      (exec_tool wScenarioABackend (.str "fs") (.str "read_file")
        [("path", .str "notes.txt")],
       [Call.discover scenarioATask,
        Call.schema (.str "fs") (.arr [.str "read_file"]),
        Call.execTool (.str "fs") (.str "read_file")
          [("path", .str "notes.txt")]])
    ∧ (execute_task wScenarioABackend scenarioATask).2.countP
        (fun call => match call with
          | Call.execTool _ _ _ => true
          | _ => false) = 1 :=
  claim_scenario_a wScenarioABackend (.obj [("name", .str "read_file")])
    [("name", .str "read_file")] rfl rfl rfl

/-- Claim C10: the schema parameter of infer_arguments has no influence on
the inferred arguments: any two schema values, None included, give the
same dict for every tool name and task text.  The function body never
reads the parameter, so the two sides are definitionally equal. -/
theorem claim_infer_arguments_schema_independent
    (toolName s1 s2 : Json) (task : String) :
    infer_arguments toolName s1 task = infer_arguments toolName s2 task := rfl
